import Mathlib

/- Verification of the gnuplot session facade (gnuplot_i.hpp): a shallow
embedding of the session state, the command transport, the temp-file pool and
the plot emitters, together with proofs of the documented properties. The
POSIX build configuration is embedded (GP_MAX_TMP_FILES = 64, access mode 1
for the executable check, /tmp/gnuplotiXXXXXX temp names). -/

namespace GnuplotI

/-- Substring test on character lists: true when pat occurs contiguously in s.
Models std::string::find(pat) != std::string::npos from the source. -/
def listContains (s pat : List Char) : Bool :=
  (List.range (s.length + 1)).any (fun i => pat.isPrefixOf (s.drop i))

/-- Substring test on strings, modelling s.find(pat) != std::string::npos. -/
def strContains (s pat : String) : Bool :=
  listContains s.data pat.data

/-- The per-session member data of class Gnuplot, with the write end of the
pipe modelled as the list of strings written to it so far (each cmd call
writes the command text followed by a newline). -/
structure GnuplotState where
  valid : Bool
  two_dim : Bool
  nplots : Int
  pstyle : String
  smooth : String
  tmpfile_list : List String
  pipe : List String
deriving Repr, DecidableEq

/-- Gnuplot::cmd. When the session is invalid it does nothing. Otherwise it
writes the command text plus a newline to the pipe and flushes, then updates
plot-mode state by substring inspection of the command text: a text containing
replot leaves the state alone; otherwise one containing splot selects 3d and
counts a plot; otherwise one containing plot selects 2d and counts a plot;
otherwise the state is unchanged. -/
def cmd (g : GnuplotState) (cmdstr : String) : GnuplotState :=
  if !g.valid then g
  else
    let g1 : GnuplotState := { g with pipe := g.pipe ++ [cmdstr ++ "\n"] }
    if strContains cmdstr "replot" then g1
    else if strContains cmdstr "splot" then
      { g1 with two_dim := false, nplots := g1.nplots + 1 }
    else if strContains cmdstr "plot" then
      { g1 with two_dim := true, nplots := g1.nplots + 1 }
    else g1

/-- Gnuplot::set_smooth. When the argument contains none of the tokens unique,
frequency, csplines, bezier, the smoothing state is cleared; otherwise the
argument is stored as the smoothing state. No command is emitted. -/
def set_smooth (g : GnuplotState) (stylestr : String) : GnuplotState :=
  if !(strContains stylestr "unique") && !(strContains stylestr "frequency")
      && !(strContains stylestr "csplines") && !(strContains stylestr "bezier") then
    { g with smooth := "" }
  else
    { g with smooth := stylestr }

/-- The smoothing-token test: the argument contains at least one of the four
tokens accepted by Gnuplot::set_smooth. -/
def smoothTokens (x : String) : Bool :=
  strContains x "unique" || strContains x "frequency" ||
  strContains x "csplines" || strContains x "bezier"

/-- C1: on a valid session, cmd updates plot-mode state by the else-if chain of
the source: a command containing replot changes neither two_dim nor nplots;
otherwise one containing splot sets two_dim to false and increments nplots by
one; otherwise one containing plot sets two_dim to true and increments nplots
by one; otherwise both fields are unchanged. -/
theorem cmd_plot_mode_update (g : GnuplotState) (s : String) (hv : g.valid = true) :
    (strContains s "replot" = true →
      (cmd g s).two_dim = g.two_dim ∧ (cmd g s).nplots = g.nplots) ∧
    (strContains s "replot" = false → strContains s "splot" = true →
      (cmd g s).two_dim = false ∧ (cmd g s).nplots = g.nplots + 1) ∧
    (strContains s "replot" = false → strContains s "splot" = false →
      strContains s "plot" = true →
      (cmd g s).two_dim = true ∧ (cmd g s).nplots = g.nplots + 1) ∧
    (strContains s "replot" = false → strContains s "splot" = false →
      strContains s "plot" = false →
      (cmd g s).two_dim = g.two_dim ∧ (cmd g s).nplots = g.nplots) := by
  refine ⟨fun h1 => ?_, fun h1 h2 => ?_, fun h1 h2 h3 => ?_, fun h1 h2 h3 => ?_⟩
  · simp [cmd, hv, h1]
  · simp [cmd, hv, h1, h2]
  · simp [cmd, hv, h1, h2, h3]
  · simp [cmd, hv, h1, h2, h3]

/-- Witness for C1: a concrete valid session and a concrete splot command. -/
theorem cmd_plot_mode_update_witness :
    (cmd ⟨true, true, 2, "points", "", [], []⟩ "splot \"f.dat\"").two_dim = false ∧
    (cmd ⟨true, true, 2, "points", "", [], []⟩ "splot \"f.dat\"").nplots = 2 + 1 :=
  (cmd_plot_mode_update ⟨true, true, 2, "points", "", [], []⟩ "splot \"f.dat\""
    (by decide)).2.1 (by decide) (by decide)

/-- C8: on an invalid session cmd is a complete no-op: the result is the input
state itself, so nothing is written to the pipe and every session field is
unchanged. -/
theorem cmd_invalid_noop (g : GnuplotState) (s : String) (h : g.valid = false) :
    cmd g s = g := by
  simp [cmd, h]

/-- Witness for C8: a concrete invalid session and a concrete command. -/
theorem cmd_invalid_noop_witness :
    cmd ⟨false, true, 3, "lines", "bezier", ["/tmp/gnuplotiAAAAAA"], ["plot x\n"]⟩
        "plot sin(x)"
      = ⟨false, true, 3, "lines", "bezier", ["/tmp/gnuplotiAAAAAA"], ["plot x\n"]⟩ :=
  cmd_invalid_noop _ "plot sin(x)" (by decide)

/-- Helper: the four smoothing tokens are not substrings of the empty string. -/
theorem smoothTokens_empty : smoothTokens "" = false := by decide

/-- C7: after set_smooth the smoothing state is non-empty exactly when the
argument contains one of the tokens unique, frequency, csplines, bezier; when
it does, the smoothing state equals the argument, otherwise it is empty; every
other session field, including the pipe, is unchanged. -/
theorem set_smooth_spec (g : GnuplotState) (x : String) :
    ((set_smooth g x).smooth ≠ "" ↔ smoothTokens x = true) ∧
    (smoothTokens x = true → (set_smooth g x).smooth = x) ∧
    (smoothTokens x = false → (set_smooth g x).smooth = "") ∧
    (set_smooth g x).valid = g.valid ∧
    (set_smooth g x).two_dim = g.two_dim ∧
    (set_smooth g x).nplots = g.nplots ∧
    (set_smooth g x).pstyle = g.pstyle ∧
    (set_smooth g x).tmpfile_list = g.tmpfile_list ∧
    (set_smooth g x).pipe = g.pipe := by
  have hx : smoothTokens x = true → x ≠ "" := by
    intro ht he
    rw [he, smoothTokens_empty] at ht
    exact Bool.false_ne_true ht
  cases h1 : strContains x "unique" <;>
    cases h2 : strContains x "frequency" <;>
      cases h3 : strContains x "csplines" <;>
        cases h4 : strContains x "bezier" <;>
          simp_all [set_smooth, smoothTokens]

/-- Witness for C7. The statement of set_smooth_spec has no Prop hypothesis,
but we record a concrete evaluation anyway: a token-bearing argument is stored
and a token-free argument clears the smoothing state. -/
theorem set_smooth_spec_witness :
    (set_smooth ⟨true, false, 0, "points", "", [], []⟩ "acsplines").smooth = "acsplines" :=
  (set_smooth_spec ⟨true, false, 0, "points", "", [], []⟩ "acsplines").2.1 (by decide)

/-- The single user-visible error kind of the facade (GnuplotException) plus
the std::runtime_error raised by file_exists on a bad mode integer. -/
inductive GpError where
  | gnuplotException : String → GpError
  | runtimeError : String → GpError
deriving Repr, DecidableEq

/-- Platform constant of the POSIX build: the hard cap used by the temp-file
pool (GP_MAX_TMP_FILES). -/
def GP_MAX_TMP_FILES : Int := 64

/-- Environment inputs consumed by one create_tmpfile call: the six characters
the unique-name primitive (mkstemp) substitutes for the X placeholders, or
none when the primitive fails, and whether the stream opened onto the new file
reports bad. -/
structure TmpEnv where
  mktempSuffix : Option String
  openBad : Bool
deriving Repr, DecidableEq

/-- Whole-program state: the one session under consideration, the process-wide
counter of outstanding temp files (static int Gnuplot::tmpfile_num, initially
zero), and the scratch filesystem as a path-to-contents association list. -/
structure World where
  gp : GnuplotState
  tmpfile_num : Int
  files : List (String × String)
deriving Repr, DecidableEq

/-- Write contents to a path in the modelled filesystem, replacing any
previous entry for that path. -/
def fsWrite (fs : List (String × String)) (name contents : String) :
    List (String × String) :=
  (name, contents) :: fs.eraseP (fun q => q.1 == name)

/-- Gnuplot::create_tmpfile, POSIX branch. The name template is
/tmp/gnuplotiXXXXXX. First the quota check: when the process-wide counter
equals GP_MAX_TMP_FILES - 1 an exception is raised. Then mkstemp replaces the
X placeholders and creates the file, raising an exception on failure. The
descriptor is closed and the path is re-opened as a stream; a bad stream
raises an exception. On success the path is appended to the session temp-file
list, the counter is incremented, and the path is returned. -/
def create_tmpfile (env : TmpEnv) (w : World) : Except GpError String × World :=
  if w.tmpfile_num = GP_MAX_TMP_FILES - 1 then
    (.error (.gnuplotException
      "Maximum number of temporary files reached (64): cannot open more files\n"), w)
  else
    match env.mktempSuffix with
    | none =>
        (.error (.gnuplotException
          "Cannot create temporary file \"/tmp/gnuplotiXXXXXX\""), w)
    | some sfx =>
        let name := "/tmp/gnuploti" ++ sfx
        let w1 : World := { w with files := fsWrite w.files name "" }
        if env.openBad then
          (.error (.gnuplotException
            ("Cannot create temporary file \"" ++ name ++ "\"")), w1)
        else
          (.ok name,
           { w1 with
               gp := { w1.gp with tmpfile_list := w1.gp.tmpfile_list ++ [name] },
               tmpfile_num := w1.tmpfile_num + 1 })

/-- C5: create_tmpfile either succeeds, returning a non-empty path, appending
exactly that path to the session temp-file list and incrementing the global
counter by one, or raises an exception on each of its three failure cases
(quota exceeded, unique-name primitive failure, bad output stream), leaving
the temp-file list and the global counter unchanged on every failure. -/
theorem create_tmpfile_spec (env : TmpEnv) (w : World) :
    (w.tmpfile_num ≠ GP_MAX_TMP_FILES - 1 → ∀ sfx, env.mktempSuffix = some sfx →
      env.openBad = false →
      create_tmpfile env w =
        (.ok ("/tmp/gnuploti" ++ sfx),
         { w with
             gp := { w.gp with
               tmpfile_list := w.gp.tmpfile_list ++ ["/tmp/gnuploti" ++ sfx] },
             tmpfile_num := w.tmpfile_num + 1,
             files := fsWrite w.files ("/tmp/gnuploti" ++ sfx) "" }) ∧
      ("/tmp/gnuploti" ++ sfx : String) ≠ "") ∧
    (w.tmpfile_num = GP_MAX_TMP_FILES - 1 →
      ∃ m, create_tmpfile env w = (.error (.gnuplotException m), w)) ∧
    (w.tmpfile_num ≠ GP_MAX_TMP_FILES - 1 → env.mktempSuffix = none →
      ∃ m, create_tmpfile env w = (.error (.gnuplotException m), w)) ∧
    (w.tmpfile_num ≠ GP_MAX_TMP_FILES - 1 → ∀ sfx, env.mktempSuffix = some sfx →
      env.openBad = true →
      ∃ m, (create_tmpfile env w).1 = .error (.gnuplotException m) ∧
        (create_tmpfile env w).2.gp.tmpfile_list = w.gp.tmpfile_list ∧
        (create_tmpfile env w).2.tmpfile_num = w.tmpfile_num) := by
  refine ⟨fun hq sfx hs ho => ⟨?_, ?_⟩, fun hq => ?_, fun hq hs => ?_,
      fun hq sfx hs ho => ?_⟩
  · simp [create_tmpfile, hq, hs, ho]
  · intro he
    have hd := congrArg String.data he
    simp [String.data_append] at hd
  · exact ⟨"Maximum number of temporary files reached (64): cannot open more files\n",
      by simp [create_tmpfile, hq]⟩
  · exact ⟨"Cannot create temporary file \"/tmp/gnuplotiXXXXXX\"",
      by simp [create_tmpfile, hq, hs]⟩
  · refine ⟨"Cannot create temporary file \"" ++ ("/tmp/gnuploti" ++ sfx) ++ "\"",
      ?_, ?_, ?_⟩ <;> simp [create_tmpfile, hq, hs, ho]

/-- Witness for C5: a fresh world, a successful unique name and a good stream
produce exactly the expected path, list entry and counter. -/
theorem create_tmpfile_spec_witness :
    create_tmpfile ⟨some "Ab12cd", false⟩ ⟨⟨true, false, 0, "points", "", [], []⟩, 0, []⟩
      = (.ok "/tmp/gnuplotiAb12cd",
         ⟨⟨true, false, 0, "points", "", ["/tmp/gnuplotiAb12cd"], []⟩, 1,
          [("/tmp/gnuplotiAb12cd", "")]⟩) := by
  have h := ((create_tmpfile_spec ⟨some "Ab12cd", false⟩
      ⟨⟨true, false, 0, "points", "", [], []⟩, 0, []⟩).1 (by decide) "Ab12cd" rfl rfl).1
  simpa [fsWrite] using h

/-- Boolean prefix test on strings via the underlying character lists. -/
def strStartsWith (pat s : String) : Bool := pat.data.isPrefixOf s.data

/-- Boolean suffix test on strings via the underlying character lists. -/
def strEndsWith (pat s : String) : Bool := pat.data.isSuffixOf s.data

/-- The substring test agrees with the infix relation on character lists. -/
theorem listContains_iff_infix (s pat : List Char) :
    listContains s pat = true ↔ pat <:+: s := by
  unfold listContains
  rw [List.any_eq_true]
  constructor
  · rintro ⟨i, _, hp⟩
    exact (List.isPrefixOf_iff_prefix.mp hp).isInfix.trans (List.drop_suffix i s).isInfix
  · rintro ⟨pre, post, rfl⟩
    refine ⟨pre.length, List.mem_range.mpr ?_, ?_⟩
    · simp only [List.length_append]
      omega
    · rw [List.isPrefixOf_iff_prefix, List.append_assoc, List.drop_left]
      exact List.prefix_append pat post

/-- Sufficient condition for the string substring test. -/
theorem strContains_of_infix (s pat : String) (h : pat.data <:+: s.data) :
    strContains s pat = true := by
  rw [strContains, listContains_iff_infix]
  exact h

/-- A four-segment concatenation starts with its first segment. -/
theorem strStartsWith_app4 (a b c d : String) :
    strStartsWith a (a ++ b ++ c ++ d) = true := by
  unfold strStartsWith
  rw [List.isPrefixOf_iff_prefix]
  simp only [String.data_append, List.append_assoc]
  exact List.prefix_append _ _

/-- A four-segment concatenation ends with its last segment. -/
theorem strEndsWith_app4 (a b c d : String) :
    strEndsWith d (a ++ b ++ c ++ d) = true := by
  unfold strEndsWith
  rw [List.isSuffixOf_iff_suffix]
  simp only [String.data_append]
  exact List.suffix_append _ _

/-- A four-segment concatenation contains its second segment. -/
theorem strContains_app4_second (a pat c d : String) :
    strContains (a ++ pat ++ c ++ d) pat = true := by
  apply strContains_of_infix
  refine ⟨a.data, c.data ++ d.data, ?_⟩
  simp [String.data_append]

/-- A four-segment concatenation contains its third segment. -/
theorem strContains_app4_third (a b pat d : String) :
    strContains (a ++ b ++ pat ++ d) pat = true := by
  apply strContains_of_infix
  refine ⟨a.data ++ b.data, d.data, ?_⟩
  simp [String.data_append]

/-- On a valid session cmd writes exactly the command text plus a newline. -/
theorem cmd_pipe (g : GnuplotState) (s : String) (hv : g.valid = true) :
    (cmd g s).pipe = g.pipe ++ [s ++ "\n"] := by
  cases h1 : strContains s "replot" <;> cases h2 : strContains s "splot" <;>
    cases h3 : strContains s "plot" <;> simp [cmd, hv, h1, h2, h3]

/-- cmd never touches the session temp-file list. -/
theorem cmd_tmpfile_list (g : GnuplotState) (s : String) :
    (cmd g s).tmpfile_list = g.tmpfile_list := by
  cases hv : g.valid <;> cases h1 : strContains s "replot" <;>
    cases h2 : strContains s "splot" <;> cases h3 : strContains s "plot" <;>
      simp [cmd, hv, h1, h2, h3]

/-- Mode-0 access check (existence) on the modelled scratch filesystem. -/
def fileExistsW (w : World) (filename : String) : Bool :=
  (w.files.lookup filename).isSome

/-- Mode-4 access check (read permission): mkstemp creates its files readable
by their owner, so in this model an existing scratch file is readable. -/
def fileReadableW (w : World) (filename : String) : Bool :=
  (w.files.lookup filename).isSome

/-- Gnuplot::file_available: an existence check (mode 0) followed by a
read-permission check (mode 4); a missing file or a missing read permission
raises a GnuplotException. -/
def file_availableW (w : World) (filename : String) : Except GpError Unit :=
  if fileExistsW w filename then
    if fileReadableW w filename then .ok ()
    else .error (.gnuplotException
      ("No read permission for File \"" ++ filename ++ "\""))
  else .error (.gnuplotException ("File \"" ++ filename ++ "\" does not exist"))

/-- The command string assembled by Gnuplot::plotfile_x: replot when the
session already holds 2d plots, otherwise plot; then the quoted filename and
the column index; then the title clause or notitle; then smooth with the
stored smoothing mode when it is non-empty, otherwise with the stored style. -/
def plotfile_x_cmdstr (g : GnuplotState) (filename : String) (column : Nat)
    (title : String) : String :=
  (if 0 < g.nplots ∧ g.two_dim = true then "replot " else "plot ")
    ++ ("\"" ++ filename ++ "\" using " ++ Nat.repr column)
    ++ (if title = "" then " notitle " else " title \"" ++ title ++ "\" ")
    ++ (if g.smooth = "" then "with " ++ g.pstyle else "smooth " ++ g.smooth)

/-- The command string assembled by Gnuplot::plotfile_xy; as plotfile_x with
two column indices separated by a colon. -/
def plotfile_xy_cmdstr (g : GnuplotState) (filename : String)
    (column_x column_y : Nat) (title : String) : String :=
  (if 0 < g.nplots ∧ g.two_dim = true then "replot " else "plot ")
    ++ ("\"" ++ filename ++ "\" using " ++ Nat.repr column_x ++ ":" ++ Nat.repr column_y)
    ++ (if title = "" then " notitle " else " title \"" ++ title ++ "\" ")
    ++ (if g.smooth = "" then "with " ++ g.pstyle else "smooth " ++ g.smooth)

/-- The command string assembled by Gnuplot::plotfile_xy_err: three column
indices, always with errorbars, then the title clause. -/
def plotfile_xy_err_cmdstr (g : GnuplotState) (filename : String)
    (column_x column_y column_dy : Nat) (title : String) : String :=
  (if 0 < g.nplots ∧ g.two_dim = true then "replot " else "plot ")
    ++ ("\"" ++ filename ++ "\" using " ++ Nat.repr column_x ++ ":" ++ Nat.repr column_y
        ++ ":" ++ Nat.repr column_dy ++ " with errorbars ")
    ++ (if title = "" then " notitle " else " title \"" ++ title ++ "\" ")

/-- The command string assembled by Gnuplot::plotfile_xyz: replot when the
session already holds 3d plots, otherwise splot; then the quoted filename,
three column indices, the title clause and the stored style. -/
def plotfile_xyz_cmdstr (g : GnuplotState) (filename : String)
    (column_x column_y column_z : Nat) (title : String) : String :=
  (if 0 < g.nplots ∧ g.two_dim = false then "replot " else "splot ")
    ++ ("\"" ++ filename ++ "\" using " ++ Nat.repr column_x ++ ":" ++ Nat.repr column_y
        ++ ":" ++ Nat.repr column_z)
    ++ (if title = "" then " notitle with " ++ g.pstyle
        else " title \"" ++ title ++ "\" with " ++ g.pstyle)

/-- Gnuplot::plotfile_x: check the referenced file, then submit the assembled
command through cmd. -/
def plotfile_x (w : World) (filename : String) (column : Nat) (title : String) :
    Except GpError Unit × World :=
  match file_availableW w filename with
  | .error e => (.error e, w)
  | .ok _ =>
      (.ok (), { w with gp := cmd w.gp (plotfile_x_cmdstr w.gp filename column title) })

/-- Gnuplot::plotfile_xy: check the referenced file, then submit the assembled
command through cmd. -/
def plotfile_xy (w : World) (filename : String) (column_x column_y : Nat)
    (title : String) : Except GpError Unit × World :=
  match file_availableW w filename with
  | .error e => (.error e, w)
  | .ok _ =>
      (.ok (), { w with
        gp := cmd w.gp (plotfile_xy_cmdstr w.gp filename column_x column_y title) })

/-- Gnuplot::plotfile_xy_err: check the referenced file, then submit the
assembled command through cmd. -/
def plotfile_xy_err (w : World) (filename : String)
    (column_x column_y column_dy : Nat) (title : String) :
    Except GpError Unit × World :=
  match file_availableW w filename with
  | .error e => (.error e, w)
  | .ok _ =>
      (.ok (), { w with
        gp := cmd w.gp (plotfile_xy_err_cmdstr w.gp filename column_x column_y
          column_dy title) })

/-- Gnuplot::plotfile_xyz: check the referenced file, then submit the
assembled command through cmd. -/
def plotfile_xyz (w : World) (filename : String)
    (column_x column_y column_z : Nat) (title : String) :
    Except GpError Unit × World :=
  match file_availableW w filename with
  | .error e => (.error e, w)
  | .ok _ =>
      (.ok (), { w with
        gp := cmd w.gp (plotfile_xyz_cmdstr w.gp filename column_x column_y
          column_z title) })

/-- C2: the commands emitted by plotfile_x and plotfile_xy use the verb replot
exactly when the session has issued plots and is in 2d mode and plot
otherwise; they reference the file in double quotes with the given column
indices; they end with the smooth clause when the smoothing string is
non-empty and with the style clause when it is empty; they use notitle when
the title argument is empty; and with the file available on a valid session
the assembled command is written to the pipe. -/
theorem plotfile_x_xy_command_shape (g : GnuplotState) (w : World)
    (filename : String) (c cx cy : Nat) (title : String) :
    (0 < g.nplots ∧ g.two_dim = true →
      strStartsWith "replot " (plotfile_x_cmdstr g filename c title) = true ∧
      strStartsWith "replot " (plotfile_xy_cmdstr g filename cx cy title) = true) ∧
    (¬(0 < g.nplots ∧ g.two_dim = true) →
      strStartsWith "plot " (plotfile_x_cmdstr g filename c title) = true ∧
      strStartsWith "plot " (plotfile_xy_cmdstr g filename cx cy title) = true) ∧
    strContains (plotfile_x_cmdstr g filename c title)
      ("\"" ++ filename ++ "\" using " ++ Nat.repr c) = true ∧
    strContains (plotfile_xy_cmdstr g filename cx cy title)
      ("\"" ++ filename ++ "\" using " ++ Nat.repr cx ++ ":" ++ Nat.repr cy) = true ∧
    (g.smooth ≠ "" →
      strEndsWith ("smooth " ++ g.smooth) (plotfile_x_cmdstr g filename c title) = true ∧
      strEndsWith ("smooth " ++ g.smooth)
        (plotfile_xy_cmdstr g filename cx cy title) = true) ∧
    (g.smooth = "" →
      strEndsWith ("with " ++ g.pstyle) (plotfile_x_cmdstr g filename c title) = true ∧
      strEndsWith ("with " ++ g.pstyle)
        (plotfile_xy_cmdstr g filename cx cy title) = true) ∧
    (title = "" →
      strContains (plotfile_x_cmdstr g filename c title) " notitle " = true ∧
      strContains (plotfile_xy_cmdstr g filename cx cy title) " notitle " = true) ∧
    (file_availableW w filename = .ok () → w.gp.valid = true →
      (plotfile_x w filename c title).2.gp.pipe
        = w.gp.pipe ++ [plotfile_x_cmdstr w.gp filename c title ++ "\n"] ∧
      (plotfile_xy w filename cx cy title).2.gp.pipe
        = w.gp.pipe ++ [plotfile_xy_cmdstr w.gp filename cx cy title ++ "\n"]) := by
  refine ⟨fun h => ⟨?_, ?_⟩, fun h => ⟨?_, ?_⟩, ?_, ?_, fun h => ⟨?_, ?_⟩,
      fun h => ⟨?_, ?_⟩, fun h => ⟨?_, ?_⟩, fun hf hv => ⟨?_, ?_⟩⟩
  · rw [plotfile_x_cmdstr, if_pos h]
    exact strStartsWith_app4 _ _ _ _
  · rw [plotfile_xy_cmdstr, if_pos h]
    exact strStartsWith_app4 _ _ _ _
  · rw [plotfile_x_cmdstr, if_neg h]
    exact strStartsWith_app4 _ _ _ _
  · rw [plotfile_xy_cmdstr, if_neg h]
    exact strStartsWith_app4 _ _ _ _
  · rw [plotfile_x_cmdstr]
    exact strContains_app4_second _ _ _ _
  · rw [plotfile_xy_cmdstr]
    exact strContains_app4_second _ _ _ _
  · rw [plotfile_x_cmdstr, if_neg h]
    exact strEndsWith_app4 _ _ _ _
  · rw [plotfile_xy_cmdstr, if_neg h]
    exact strEndsWith_app4 _ _ _ _
  · rw [plotfile_x_cmdstr, if_pos h]
    exact strEndsWith_app4 _ _ _ _
  · rw [plotfile_xy_cmdstr, if_pos h]
    exact strEndsWith_app4 _ _ _ _
  · rw [plotfile_x_cmdstr, if_pos h]
    exact strContains_app4_third _ _ _ _
  · rw [plotfile_xy_cmdstr, if_pos h]
    exact strContains_app4_third _ _ _ _
  · rw [plotfile_x, hf]
    exact cmd_pipe _ _ hv
  · rw [plotfile_xy, hf]
    exact cmd_pipe _ _ hv

/-- Witness for C2: a concrete session with one 2d plot issued, an empty
smoothing mode and an empty title yields a replot command with a notitle
clause, written to the pipe of the concrete world. -/
theorem plotfile_x_xy_command_shape_witness :
    strStartsWith "replot "
      (plotfile_xy_cmdstr ⟨true, true, 1, "lines", "", [], []⟩
        "/tmp/gnuplotiQQ1111" 1 2 "") = true ∧
    strContains
      (plotfile_xy_cmdstr ⟨true, true, 1, "lines", "", [], []⟩
        "/tmp/gnuplotiQQ1111" 1 2 "") " notitle " = true ∧
    (plotfile_xy ⟨⟨true, true, 1, "lines", "", [], []⟩, 1,
        [("/tmp/gnuplotiQQ1111", "0 0\n1 1\n")]⟩
      "/tmp/gnuplotiQQ1111" 1 2 "").2.gp.pipe
      = [] ++ [plotfile_xy_cmdstr ⟨true, true, 1, "lines", "", [], []⟩
          "/tmp/gnuplotiQQ1111" 1 2 "" ++ "\n"] :=
  ⟨((plotfile_x_xy_command_shape ⟨true, true, 1, "lines", "", [], []⟩
      ⟨⟨true, true, 1, "lines", "", [], []⟩, 1,
        [("/tmp/gnuplotiQQ1111", "0 0\n1 1\n")]⟩
      "/tmp/gnuplotiQQ1111" 1 1 2 "").1 (by decide)).2,
   ((plotfile_x_xy_command_shape ⟨true, true, 1, "lines", "", [], []⟩
      ⟨⟨true, true, 1, "lines", "", [], []⟩, 1,
        [("/tmp/gnuplotiQQ1111", "0 0\n1 1\n")]⟩
      "/tmp/gnuplotiQQ1111" 1 1 2 "").2.2.2.2.2.2.1 rfl).2,
   ((plotfile_x_xy_command_shape ⟨true, true, 1, "lines", "", [], []⟩
      ⟨⟨true, true, 1, "lines", "", [], []⟩, 1,
        [("/tmp/gnuplotiQQ1111", "0 0\n1 1\n")]⟩
      "/tmp/gnuplotiQQ1111" 1 1 2 "").2.2.2.2.2.2.2 rfl rfl).2⟩

/-- A rendered numeric token is free of the separator characters used by the
data materialiser: space and newline. -/
def goodTok (s : String) : Bool :=
  s.data.all (fun ch => !(ch == ' ') && !(ch == '\n'))

/-- Split a character list at every occurrence of the separator; a list with k
separators yields k plus one chunks, so text ending in the separator yields an
empty final chunk. -/
def splitOnChar (c : Char) : List Char → List (List Char)
  | [] => [[]]
  | ch :: rest =>
      if ch = c then [] :: splitOnChar c rest
      else
        match splitOnChar c rest with
        | [] => [[ch]]
        | l :: ls => (ch :: l) :: ls

/-- The data-writing loop of Gnuplot::plot_x: one rendered value per row,
newline-terminated. -/
def x_rows {α : Type} (render : α → String) : List α → List Char
  | [] => []
  | a :: xs => (render a).data ++ '\n' :: x_rows render xs

/-- The data-writing loop of Gnuplot::plot_xy: per row the two rendered values
separated by one space, newline-terminated. -/
def xy_rows {α : Type} (render : α → String) : List α → List α → List Char
  | a :: xs, b :: ys =>
      (render a).data ++ ' ' :: ((render b).data ++ '\n' :: xy_rows render xs ys)
  | _, _ => []

/-- The data-writing loop of Gnuplot::plot_xyz and Gnuplot::plot_xy_err: per
row the three rendered values separated by single spaces, newline-terminated. -/
def xyz_rows {α : Type} (render : α → String) :
    List α → List α → List α → List Char
  | a :: xs, b :: ys, c :: zs =>
      (render a).data ++ ' ' ::
        ((render b).data ++ ' ' :: ((render c).data ++ '\n' :: xyz_rows render xs ys zs))
  | _, _, _ => []

/-- Gnuplot::plot_x: reject an empty input, allocate a temp file, write one
rendered value per row, close, and dispatch to plotfile_x with column 1. When
create_tmpfile hands back an empty name the call returns without plotting, a
dead branch of the source preserved here. -/
def plot_x {α : Type} (render : α → String) (env : TmpEnv) (w : World)
    (x : List α) (title : String) : Except GpError Unit × World :=
  if x.isEmpty then (.error (.gnuplotException "std::vector too small"), w)
  else
    match create_tmpfile env w with
    | (.error e, w1) => (.error e, w1)
    | (.ok name, w1) =>
        if name = "" then (.ok (), w1)
        else
          let w2 : World :=
            { w1 with files := fsWrite w1.files name (String.mk (x_rows render x)) }
          plotfile_x w2 name 1 title

/-- Gnuplot::plot_xy: reject empty inputs, reject a length mismatch, allocate
a temp file, write the rows, close, and dispatch to plotfile_xy with columns
1 and 2. -/
def plot_xy {α : Type} (render : α → String) (env : TmpEnv) (w : World)
    (x y : List α) (title : String) : Except GpError Unit × World :=
  if x.isEmpty || y.isEmpty then
    (.error (.gnuplotException "std::vectors too small"), w)
  else if x.length != y.length then
    (.error (.gnuplotException "Length of the std::vectors differs"), w)
  else
    match create_tmpfile env w with
    | (.error e, w1) => (.error e, w1)
    | (.ok name, w1) =>
        if name = "" then
          (.error (.gnuplotException "Unable to create tmp-file."), w1)
        else
          let w2 : World :=
            { w1 with files := fsWrite w1.files name (String.mk (xy_rows render x y)) }
          plotfile_xy w2 name 1 2 title

/-- Gnuplot::plot_xy_err: reject empty inputs, reject a length mismatch on
either pair, allocate a temp file, write the rows, close, and dispatch to
plotfile_xy_err with columns 1, 2, 3. -/
def plot_xy_err {α : Type} (render : α → String) (env : TmpEnv) (w : World)
    (x y dy : List α) (title : String) : Except GpError Unit × World :=
  if x.isEmpty || y.isEmpty || dy.isEmpty then
    (.error (.gnuplotException "std::vectors too small"), w)
  else if x.length != y.length || y.length != dy.length then
    (.error (.gnuplotException "Length of the std::vectors differs"), w)
  else
    match create_tmpfile env w with
    | (.error e, w1) => (.error e, w1)
    | (.ok name, w1) =>
        if name = "" then
          (.error (.gnuplotException "Unable to create tmp-file."), w1)
        else
          let w2 : World :=
            { w1 with files := fsWrite w1.files name (String.mk (xyz_rows render x y dy)) }
          plotfile_xy_err w2 name 1 2 3 title

/-- Gnuplot::plot_xyz: reject empty inputs, reject a length mismatch against
the first sequence, allocate a temp file, write the rows, close, and dispatch
to plotfile_xyz with columns 1, 2, 3. -/
def plot_xyz {α : Type} (render : α → String) (env : TmpEnv) (w : World)
    (x y z : List α) (title : String) : Except GpError Unit × World :=
  if x.isEmpty || y.isEmpty || z.isEmpty then
    (.error (.gnuplotException "std::vectors too small"), w)
  else if x.length != y.length || x.length != z.length then
    (.error (.gnuplotException "Length of the std::vectors differs"), w)
  else
    match create_tmpfile env w with
    | (.error e, w1) => (.error e, w1)
    | (.ok name, w1) =>
        if name = "" then
          (.error (.gnuplotException "Unable to create tmp-file."), w1)
        else
          let w2 : World :=
            { w1 with files := fsWrite w1.files name (String.mk (xyz_rows render x y z)) }
          plotfile_xyz w2 name 1 2 3 title

/-- C3: each multi-sequence data-plot call rejects an empty input with the
too-small error and unequal lengths with the length-differs error, returning
the world exactly as it was: no temp file is created or opened, and nplots,
two_dim, the temp-file list and the global counter are all unchanged. -/
theorem plot_multi_rejects_bad_input {α : Type} (render : α → String)
    (env : TmpEnv) (w : World) (x y z dy : List α) (title : String) :
    (x = [] ∨ y = [] →
      plot_xy render env w x y title
        = (.error (.gnuplotException "std::vectors too small"), w)) ∧
    (x ≠ [] → y ≠ [] → x.length ≠ y.length →
      plot_xy render env w x y title
        = (.error (.gnuplotException "Length of the std::vectors differs"), w)) ∧
    (x = [] ∨ y = [] ∨ dy = [] →
      plot_xy_err render env w x y dy title
        = (.error (.gnuplotException "std::vectors too small"), w)) ∧
    (x ≠ [] → y ≠ [] → dy ≠ [] → ¬(x.length = y.length ∧ y.length = dy.length) →
      plot_xy_err render env w x y dy title
        = (.error (.gnuplotException "Length of the std::vectors differs"), w)) ∧
    (x = [] ∨ y = [] ∨ z = [] →
      plot_xyz render env w x y z title
        = (.error (.gnuplotException "std::vectors too small"), w)) ∧
    (x ≠ [] → y ≠ [] → z ≠ [] → ¬(x.length = y.length ∧ x.length = z.length) →
      plot_xyz render env w x y z title
        = (.error (.gnuplotException "Length of the std::vectors differs"), w)) := by
  refine ⟨fun h => ?_, fun hx hy hl => ?_, fun h => ?_, fun hx hy hd hl => ?_,
      fun h => ?_, fun hx hy hz hl => ?_⟩
  · rcases h with h | h <;> subst h <;> simp [plot_xy]
  · simp [plot_xy, List.isEmpty_iff, hx, hy, bne_iff_ne, hl]
  · rcases h with h | h | h <;> subst h <;> simp [plot_xy_err]
  · by_cases hxy : x.length = y.length
    · have hyd : y.length ≠ dy.length := fun hyd => hl ⟨hxy, hyd⟩
      simp [plot_xy_err, List.isEmpty_iff, hx, hy, hd, bne_iff_ne, hyd]
    · simp [plot_xy_err, List.isEmpty_iff, hx, hy, hd, bne_iff_ne, hxy]
  · rcases h with h | h | h <;> subst h <;> simp [plot_xyz]
  · by_cases hxy : x.length = y.length
    · have hxz : x.length ≠ z.length := fun hxz => hl ⟨hxy, hxz⟩
      simp [plot_xyz, List.isEmpty_iff, hx, hy, hz, bne_iff_ne, hxz]
    · simp [plot_xyz, List.isEmpty_iff, hx, hy, hz, bne_iff_ne, hxy]

/-- Witness for C3: a concrete length mismatch and a concrete empty input are
both rejected with the world returned untouched. -/
theorem plot_multi_rejects_bad_input_witness :
    plot_xy Nat.repr ⟨some "AAAAAA", false⟩
        ⟨⟨true, false, 0, "points", "", [], []⟩, 0, []⟩ [1, 2] [1] ""
      = (.error (.gnuplotException "Length of the std::vectors differs"),
         ⟨⟨true, false, 0, "points", "", [], []⟩, 0, []⟩) ∧
    plot_xyz Nat.repr ⟨some "AAAAAA", false⟩
        ⟨⟨true, false, 0, "points", "", [], []⟩, 0, []⟩ [] [1] [1] ""
      = (.error (.gnuplotException "std::vectors too small"),
         ⟨⟨true, false, 0, "points", "", [], []⟩, 0, []⟩) :=
  ⟨(plot_multi_rejects_bad_input Nat.repr ⟨some "AAAAAA", false⟩
      ⟨⟨true, false, 0, "points", "", [], []⟩, 0, []⟩ [1, 2] [1] [1] [1] "").2.1
      (by decide) (by decide) (by decide),
   (plot_multi_rejects_bad_input Nat.repr ⟨some "AAAAAA", false⟩
      ⟨⟨true, false, 0, "points", "", [], []⟩, 0, []⟩ [] [1] [1] [1] "").2.2.2.2.1
      (Or.inl rfl)⟩

/-- A good token contains neither a space nor a newline. -/
theorem goodTok_not_mem (s : String) (h : goodTok s = true) :
    ' ' ∉ s.data ∧ '\n' ∉ s.data := by
  rw [goodTok, List.all_eq_true] at h
  constructor <;> intro hm <;> simpa using h _ hm

/-- Splitting a separator-free chunk yields just that chunk. -/
theorem splitOnChar_no_sep (c : Char) (l : List Char) (h : c ∉ l) :
    splitOnChar c l = [l] := by
  induction l with
  | nil => rfl
  | cons ch rest ih =>
      have hch : ¬(ch = c) := fun he => h (he ▸ List.mem_cons_self ch rest)
      have hr : c ∉ rest := fun hm => h (List.mem_cons_of_mem ch hm)
      simp only [splitOnChar, if_neg hch, ih hr]

/-- Splitting peels off a leading separator-free chunk up to the first
separator. -/
theorem splitOnChar_append_cons (c : Char) (l rest : List Char) (h : c ∉ l) :
    splitOnChar c (l ++ c :: rest) = l :: splitOnChar c rest := by
  induction l with
  | nil => simp [splitOnChar]
  | cons ch t ih =>
      have hch : ¬(ch = c) := fun he => h (he ▸ List.mem_cons_self ch t)
      have ht : c ∉ t := fun hm => h (List.mem_cons_of_mem ch hm)
      show splitOnChar c (ch :: (t ++ c :: rest)) = (ch :: t) :: splitOnChar c rest
      rw [splitOnChar, if_neg hch, ih ht]

/-- The rows written by the plot_xy loop split on newlines into one chunk per
index pair plus one empty final chunk. -/
theorem splitLines_xy_rows {α : Type} (render : α → String) (x y : List α)
    (hgx : ∀ a ∈ x, goodTok (render a) = true)
    (hgy : ∀ b ∈ y, goodTok (render b) = true) :
    splitOnChar '\n' (xy_rows render x y)
      = (List.zipWith (fun a b => (render a).data ++ ' ' :: (render b).data) x y)
          ++ [[]] := by
  induction x generalizing y with
  | nil => cases y <;> simp [xy_rows, splitOnChar]
  | cons a xs ih =>
      cases y with
      | nil => simp [xy_rows, splitOnChar]
      | cons b ys =>
          have hna := goodTok_not_mem _ (hgx a (List.mem_cons_self a xs))
          have hnb := goodTok_not_mem _ (hgy b (List.mem_cons_self b ys))
          have hline : '\n' ∉ (render a).data ++ ' ' :: (render b).data := by
            intro hm
            rcases List.mem_append.mp hm with hm | hm
            · exact hna.2 hm
            · rcases List.mem_cons.mp hm with hm | hm
              · exact absurd hm (by decide)
              · exact hnb.2 hm
          have key : xy_rows render (a :: xs) (b :: ys)
              = ((render a).data ++ ' ' :: (render b).data) ++ '\n' :: xy_rows render xs ys := by
            simp [xy_rows]
          rw [key, splitOnChar_append_cons _ _ _ hline,
            ih ys (fun c hc => hgx c (List.mem_cons_of_mem a hc))
              (fun c hc => hgy c (List.mem_cons_of_mem b hc))]
          simp [List.zipWith]

/-- C6: the file content materialised by plot_xy for equal-length non-empty
sequences consists of exactly length-of-x newline-terminated lines; the line
at index i splits on the separator into exactly the two rendered fields, and
under any parser that inverts the renderer the fields parse back to the i-th
elements of x and y. -/
theorem plot_xy_materialised_format {α : Type} (render : α → String)
    (parse : String → Option α) (x y : List α)
    (hlen : x.length = y.length) (hx : x ≠ [])
    (hgx : ∀ a ∈ x, goodTok (render a) = true)
    (hgy : ∀ b ∈ y, goodTok (render b) = true)
    (hpx : ∀ a ∈ x, parse (render a) = some a)
    (hpy : ∀ b ∈ y, parse (render b) = some b) :
    ∃ body : List (List Char),
      splitOnChar '\n' (xy_rows render x y) = body ++ [[]] ∧
      body.length = x.length ∧
      ∀ i (hi : i < x.length) (hj : i < y.length) (hb : i < body.length),
        splitOnChar ' ' (body.get ⟨i, hb⟩)
            = [(render (x.get ⟨i, hi⟩)).data, (render (y.get ⟨i, hj⟩)).data] ∧
        (splitOnChar ' ' (body.get ⟨i, hb⟩)).map (fun f => parse (String.mk f))
            = [some (x.get ⟨i, hi⟩), some (y.get ⟨i, hj⟩)] := by
  refine ⟨List.zipWith (fun a b => (render a).data ++ ' ' :: (render b).data) x y,
      splitLines_xy_rows render x y hgx hgy, ?_, ?_⟩
  · rw [List.length_zipWith, hlen, Nat.min_self]
  · intro i hi hj hb
    have hget : (List.zipWith (fun a b => (render a).data ++ ' ' :: (render b).data) x y).get
          ⟨i, hb⟩
        = (render (x.get ⟨i, hi⟩)).data ++ ' ' :: (render (y.get ⟨i, hj⟩)).data := by
      simp [List.get_eq_getElem, List.getElem_zipWith]
    have hmx : x.get ⟨i, hi⟩ ∈ x := List.get_mem x i hi
    have hmy : y.get ⟨i, hj⟩ ∈ y := List.get_mem y i hj
    have hga := goodTok_not_mem _ (hgx _ hmx)
    have hgb := goodTok_not_mem _ (hgy _ hmy)
    have hsplit : splitOnChar ' '
        ((render (x.get ⟨i, hi⟩)).data ++ ' ' :: (render (y.get ⟨i, hj⟩)).data)
        = [(render (x.get ⟨i, hi⟩)).data, (render (y.get ⟨i, hj⟩)).data] := by
      rw [splitOnChar_append_cons _ _ _ hga.1, splitOnChar_no_sep _ _ hgb.1]
    rw [hget, hsplit]
    refine ⟨rfl, ?_⟩
    show [parse (render (x.get ⟨i, hi⟩)), parse (render (y.get ⟨i, hj⟩))]
        = [some (x.get ⟨i, hi⟩), some (y.get ⟨i, hj⟩)]
    rw [hpx _ hmx, hpy _ hmy]

/-- Witness for C6: concrete sequences, the decimal renderer and a digit
parser that inverts it. -/
theorem plot_xy_materialised_format_witness :
    ∃ body : List (List Char),
      splitOnChar '\n' (xy_rows Nat.repr [1, 2, 3] [4, 5, 6]) = body ++ [[]] ∧
      body.length = ([1, 2, 3] : List Nat).length ∧
      ∀ i (hi : i < ([1, 2, 3] : List Nat).length)
          (hj : i < ([4, 5, 6] : List Nat).length) (hb : i < body.length),
        splitOnChar ' ' (body.get ⟨i, hb⟩)
            = [(Nat.repr (([1, 2, 3] : List Nat).get ⟨i, hi⟩)).data,
               (Nat.repr (([4, 5, 6] : List Nat).get ⟨i, hj⟩)).data] ∧
        (splitOnChar ' ' (body.get ⟨i, hb⟩)).map
            (fun f => (fun s => (List.range 10).find? (fun n => Nat.repr n == s))
              (String.mk f))
            = [some (([1, 2, 3] : List Nat).get ⟨i, hi⟩),
               some (([4, 5, 6] : List Nat).get ⟨i, hj⟩)] :=
  plot_xy_materialised_format Nat.repr
    (fun s => (List.range 10).find? (fun n => Nat.repr n == s))
    [1, 2, 3] [4, 5, 6] rfl (by decide) (by decide) (by decide) (by decide) (by decide)

/-- The static configuration consulted by set_GNUPlotPath: the configured
plotter directory and the platform plotter filename. -/
structure PathState where
  m_sGNUPlotPath : String
  m_sGNUPlotFileName : String
deriving Repr, DecidableEq

/-- Gnuplot::file_exists: reject a mode outside 0..7 with a runtime error,
otherwise consult the access oracle (the access system call) for the given
path and mode. -/
def file_exists (acc : String → Int → Bool) (filename : String) (mode : Int) :
    Except GpError Bool :=
  if mode < 0 ∨ mode > 7 then
    .error (.runtimeError
      "In function \"Gnuplot::file_exists\": mode has to be an integer between 0 and 7")
  else
    .ok (acc filename mode)

/-- Gnuplot::set_GNUPlotPath, POSIX branch: validate path slash filename with
the existence-and-execute-permission check (mode 1); on success store the path
and return true; on failure blank the configured directory and return false. -/
def set_GNUPlotPath (acc : String → Int → Bool) (st : PathState) (path : String) :
    PathState × Bool :=
  let tmp := path ++ "/" ++ st.m_sGNUPlotFileName
  match file_exists acc tmp 1 with
  | .ok true => ({ st with m_sGNUPlotPath := path }, true)
  | _ => ({ st with m_sGNUPlotPath := "" }, false)

/-- C9: set_GNUPlotPath returns true and stores the path exactly when the
composed candidate passes the platform access check at mode 1; otherwise it
returns false and blanks the configured plotter directory. -/
theorem set_GNUPlotPath_spec (acc : String → Int → Bool) (st : PathState)
    (p : String) :
    (acc (p ++ "/" ++ st.m_sGNUPlotFileName) 1 = true →
      set_GNUPlotPath acc st p = ({ st with m_sGNUPlotPath := p }, true)) ∧
    (acc (p ++ "/" ++ st.m_sGNUPlotFileName) 1 = false →
      set_GNUPlotPath acc st p = ({ st with m_sGNUPlotPath := "" }, false)) := by
  constructor <;> intro h <;> simp [set_GNUPlotPath, file_exists, h]

/-- Witness for C9: an always-succeeding access oracle stores the new path;
the result carries true. -/
theorem set_GNUPlotPath_spec_witness :
    set_GNUPlotPath (fun _ _ => true) ⟨"/usr/local/bin/", "gnuplot"⟩ "/opt/bin"
      = (⟨"/opt/bin", "gnuplot"⟩, true) :=
  (set_GNUPlotPath_spec (fun _ _ => true) ⟨"/usr/local/bin/", "gnuplot"⟩ "/opt/bin").1
    rfl

/-- Inner loop of Gnuplot::remove_tmpfiles: unlink every listed path in order;
the first failing unlink raises an exception, with the files removed so far
staying removed. In this filesystem model unlink succeeds exactly on existing
paths. -/
def removeLoop : List (String × String) → List String →
    Except GpError Unit × List (String × String)
  | fs, [] => (.ok (), fs)
  | fs, p :: rest =>
      if (fs.lookup p).isSome then
        removeLoop (fs.eraseP (fun q => q.1 == p)) rest
      else
        (.error (.gnuplotException
          ("Cannot remove temporary file \"" ++ p ++ "\"")), fs)

/-- Gnuplot::remove_tmpfiles: when the session temp-file list is non-empty,
unlink every listed file, then decrement the process-wide counter by the list
size; the list itself is never cleared. An unlink failure raises an exception
before the decrement happens. -/
def remove_tmpfiles (w : World) : Except GpError Unit × World :=
  if 0 < w.gp.tmpfile_list.length then
    match removeLoop w.files w.gp.tmpfile_list with
    | (.ok _, fs') =>
        (.ok (),
         { w with
             files := fs',
             tmpfile_num := w.tmpfile_num - (w.gp.tmpfile_list.length : Int) })
    | (.error e, fs') => (.error e, { w with files := fs' })
  else (.ok (), w)

/-- A lookup misses exactly when the key is absent from the key column. -/
theorem lookup_none_iff_keys (fs : List (String × String)) (p : String) :
    fs.lookup p = none ↔ p ∉ fs.map Prod.fst := by
  induction fs with
  | nil => simp [List.lookup]
  | cons q rest ih =>
      cases q with
      | mk k v =>
          by_cases hk : p = k
          · subst hk
            simp [List.lookup]
          · have hb : (p == k) = false := by simp [hk]
            rw [List.map_cons]
            constructor
            · intro h hm
              rcases List.mem_cons.mp hm with h1 | h1
              · exact hk h1
              · have hrest : List.lookup p rest = none := by
                  simpa [List.lookup, hb] using h
                exact (ih.mp hrest) h1
            · intro h
              have hnm : p ∉ rest.map Prod.fst :=
                fun hm => h (List.mem_cons_of_mem _ hm)
              simpa [List.lookup, hb] using ih.mpr hnm

/-- A lookup that misses a superlist also misses any sublist. -/
theorem lookup_none_sub (sub fs2 : List (String × String)) (p : String)
    (hs : sub.Sublist fs2) (h : fs2.lookup p = none) : sub.lookup p = none := by
  rw [lookup_none_iff_keys] at h ⊢
  exact fun hm => h ((hs.map Prod.fst).subset hm)

/-- After erasing the entry for a key from a key-nodup association list, the
key is gone. -/
theorem lookup_eraseP_self (fs : List (String × String)) (p : String)
    (hnd : (fs.map Prod.fst).Nodup) :
    (fs.eraseP (fun q => q.1 == p)).lookup p = none := by
  induction fs with
  | nil => rfl
  | cons q rest ih =>
      simp only [List.map_cons, List.nodup_cons] at hnd
      cases q with
      | mk k v =>
          by_cases hqp : k = p
          · have hq : (k == p) = true := by simp [hqp]
            simp only [List.eraseP_cons, hq, cond_true]
            rw [lookup_none_iff_keys]
            exact hqp ▸ hnd.1
          · have hq : (k == p) = false := by simp [hqp]
            simp only [List.eraseP_cons, hq, cond_false]
            have hpk : ¬p = k := fun h => hqp h.symm
            have hb : (p == k) = false := by simp [hpk]
            simp [List.lookup, hb, ih hnd.2]

/-- The remove loop only ever shrinks the filesystem. -/
theorem removeLoop_sublist (l : List String) (fs : List (String × String)) :
    (removeLoop fs l).2.Sublist fs := by
  induction l generalizing fs with
  | nil => exact List.Sublist.refl fs
  | cons p rest ih =>
      by_cases hp : (fs.lookup p).isSome
      · have heq : removeLoop fs (p :: rest)
            = removeLoop (fs.eraseP (fun q => q.1 == p)) rest := by
          simp [removeLoop, hp]
        rw [heq]
        exact (ih _).trans (List.eraseP_sublist _)
      · simp [removeLoop, hp]

/-- A successful remove loop unlinks every listed path. -/
theorem removeLoop_ok_removes (l : List String) (fs : List (String × String))
    (hnd : (fs.map Prod.fst).Nodup)
    (hok : (removeLoop fs l).1 = .ok ()) :
    ∀ p ∈ l, (removeLoop fs l).2.lookup p = none := by
  induction l generalizing fs with
  | nil => intro p hp; cases hp
  | cons p0 rest ih =>
      by_cases hp0 : (fs.lookup p0).isSome
      · have heq : removeLoop fs (p0 :: rest)
            = removeLoop (fs.eraseP (fun q => q.1 == p0)) rest := by
          simp [removeLoop, hp0]
        rw [heq] at hok ⊢
        have hnd' : ((fs.eraseP (fun q => q.1 == p0)).map Prod.fst).Nodup :=
          hnd.sublist ((List.eraseP_sublist _).map Prod.fst)
        intro p hp
        rcases List.mem_cons.mp hp with rfl | hp
        · exact lookup_none_sub _ _ p (removeLoop_sublist rest _)
            (lookup_eraseP_self fs p hnd)
        · exact ih _ hnd' hok p hp
      · simp [removeLoop, hp0] at hok

/-- A remove_tmpfiles call whose first listed path is already gone from the
filesystem raises the cannot-remove exception and leaves the world unchanged. -/
theorem remove_tmpfiles_stuck (w' : World) (p0 : String) (rest : List String)
    (hl : w'.gp.tmpfile_list = p0 :: rest)
    (hp0 : w'.files.lookup p0 = none) :
    remove_tmpfiles w'
      = (.error (.gnuplotException
          ("Cannot remove temporary file \"" ++ p0 ++ "\"")), w') := by
  have hlen' : 0 < w'.gp.tmpfile_list.length := by
    rw [hl]
    simp
  have hp0some : (w'.files.lookup p0).isSome = false := by
    rw [hp0]
    rfl
  have hloop : removeLoop w'.files w'.gp.tmpfile_list
      = (.error (.gnuplotException
          ("Cannot remove temporary file \"" ++ p0 ++ "\"")), w'.files) := by
    rw [hl, removeLoop, if_neg]
    rw [hp0some]
    exact Bool.false_ne_true
  rw [remove_tmpfiles, if_pos hlen', hloop]

/-- C10: remove_tmpfiles never clears the session temp-file list. After a
successful call every listed path has been unlinked and the counter dropped by
the list size, yet the list still holds every removed path, so an immediately
repeated call fails with an exception and leaves the counter alone. -/
theorem remove_tmpfiles_list_not_cleared (w : World)
    (hnd : (w.files.map Prod.fst).Nodup)
    (hne : w.gp.tmpfile_list ≠ [])
    (hok : (remove_tmpfiles w).1 = .ok ()) :
    (remove_tmpfiles w).2.gp.tmpfile_list = w.gp.tmpfile_list ∧
    (∀ p ∈ w.gp.tmpfile_list, (remove_tmpfiles w).2.files.lookup p = none) ∧
    (remove_tmpfiles w).2.tmpfile_num
        = w.tmpfile_num - (w.gp.tmpfile_list.length : Int) ∧
    (∃ m, (remove_tmpfiles (remove_tmpfiles w).2).1
        = .error (.gnuplotException m)) ∧
    (remove_tmpfiles (remove_tmpfiles w).2).2.tmpfile_num
        = (remove_tmpfiles w).2.tmpfile_num := by
  have hlen : 0 < w.gp.tmpfile_list.length := List.length_pos.mpr hne
  rcases hres : removeLoop w.files w.gp.tmpfile_list with ⟨r, fs'⟩
  cases r with
  | error e =>
      rw [remove_tmpfiles] at hok
      rw [if_pos hlen, hres] at hok
      simp at hok
  | ok u =>
      cases u
      have heq : remove_tmpfiles w
          = (.ok (),
             { w with
                 files := fs',
                 tmpfile_num := w.tmpfile_num - (w.gp.tmpfile_list.length : Int) }) := by
        rw [remove_tmpfiles, if_pos hlen, hres]
      have hloop_ok : (removeLoop w.files w.gp.tmpfile_list).1 = .ok () := by
        rw [hres]
      have hgone : ∀ p ∈ w.gp.tmpfile_list, fs'.lookup p = none := by
        intro p hp
        have hm := removeLoop_ok_removes w.gp.tmpfile_list w.files hnd hloop_ok p hp
        rw [hres] at hm
        exact hm
      obtain ⟨p0, rest, hl⟩ : ∃ p0 rest, w.gp.tmpfile_list = p0 :: rest := by
        cases hcase : w.gp.tmpfile_list with
        | nil => exact absurd hcase hne
        | cons a l => exact ⟨a, l, rfl⟩
      have hget2 : (remove_tmpfiles w).2.gp.tmpfile_list = w.gp.tmpfile_list := by
        rw [heq]
      have hfiles2 : (remove_tmpfiles w).2.files = fs' := by
        rw [heq]
      have hnum2 : (remove_tmpfiles w).2.tmpfile_num
          = w.tmpfile_num - (w.gp.tmpfile_list.length : Int) := by
        rw [heq]
      have hstuck := remove_tmpfiles_stuck (remove_tmpfiles w).2 p0 rest
        (by rw [hget2, hl])
        (by
          rw [hfiles2]
          exact hgone p0 (by rw [hl]; exact List.mem_cons_self p0 rest))
      refine ⟨hget2, ?_, hnum2,
        ⟨"Cannot remove temporary file \"" ++ p0 ++ "\"", by rw [hstuck]⟩,
        by rw [hstuck]⟩
      intro p hp
      rw [hfiles2]
      exact hgone p hp

/-- Witness for C10: one session owning one existing temp file; the first
removal succeeds and keeps the path listed, the second raises the
cannot-remove exception. -/
theorem remove_tmpfiles_list_not_cleared_witness :
    (remove_tmpfiles ⟨⟨true, false, 1, "points", "", ["/tmp/gnuplotiAAAAAA"], []⟩, 1,
        [("/tmp/gnuplotiAAAAAA", "")]⟩).2.gp.tmpfile_list = ["/tmp/gnuplotiAAAAAA"] ∧
    (∃ m, (remove_tmpfiles (remove_tmpfiles
        ⟨⟨true, false, 1, "points", "", ["/tmp/gnuplotiAAAAAA"], []⟩, 1,
          [("/tmp/gnuplotiAAAAAA", "")]⟩).2).1 = .error (.gnuplotException m)) :=
  ⟨(remove_tmpfiles_list_not_cleared
      ⟨⟨true, false, 1, "points", "", ["/tmp/gnuplotiAAAAAA"], []⟩, 1,
        [("/tmp/gnuplotiAAAAAA", "")]⟩ (by decide) (by decide) rfl).1,
   (remove_tmpfiles_list_not_cleared
      ⟨⟨true, false, 1, "points", "", ["/tmp/gnuplotiAAAAAA"], []⟩, 1,
        [("/tmp/gnuplotiAAAAAA", "")]⟩ (by decide) (by decide) rfl).2.2.2.1⟩

/-- A successful create_tmpfile increments the counter by exactly one. -/
theorem create_tmpfile_ok_inc (env : TmpEnv) (w : World) (name : String)
    (w' : World) (h : create_tmpfile env w = (.ok name, w')) :
    w'.tmpfile_num = w.tmpfile_num + 1 := by
  obtain ⟨ms, ob⟩ := env
  by_cases hq : w.tmpfile_num = GP_MAX_TMP_FILES - 1
  · rw [create_tmpfile, if_pos hq] at h
    exact absurd h (by simp)
  · cases ms with
    | none =>
        rw [create_tmpfile, if_neg hq] at h
        exact absurd h (by simp)
    | some sfx =>
        cases ob with
        | true =>
            rw [create_tmpfile, if_neg hq] at h
            simp at h
        | false =>
            rw [create_tmpfile, if_neg hq] at h
            simp only [Bool.false_eq_true, if_false, Prod.mk.injEq,
              Except.ok.injEq] at h
            obtain ⟨h1, h2⟩ := h
            subst h2
            rfl

/-- create_tmpfile preserves the counter bound. -/
theorem create_tmpfile_num_le (env : TmpEnv) (w : World)
    (h : w.tmpfile_num ≤ GP_MAX_TMP_FILES - 1) :
    (create_tmpfile env w).2.tmpfile_num ≤ GP_MAX_TMP_FILES - 1 := by
  have h64 : GP_MAX_TMP_FILES = (64 : Int) := rfl
  obtain ⟨ms, ob⟩ := env
  by_cases hq : w.tmpfile_num = GP_MAX_TMP_FILES - 1
  · rw [create_tmpfile, if_pos hq]
    exact h
  · cases ms with
    | none =>
        rw [create_tmpfile, if_neg hq]
        exact h
    | some sfx =>
        cases ob with
        | true =>
            rw [create_tmpfile, if_neg hq]
            exact h
        | false =>
            rw [create_tmpfile, if_neg hq]
            show w.tmpfile_num + 1 ≤ GP_MAX_TMP_FILES - 1
            omega

/-- remove_tmpfiles preserves the counter bound. -/
theorem remove_tmpfiles_num_le (w : World)
    (h : w.tmpfile_num ≤ GP_MAX_TMP_FILES - 1) :
    (remove_tmpfiles w).2.tmpfile_num ≤ GP_MAX_TMP_FILES - 1 := by
  by_cases hl : 0 < w.gp.tmpfile_list.length
  · rcases hres : removeLoop w.files w.gp.tmpfile_list with ⟨r, fs'⟩
    cases r with
    | error e =>
        rw [remove_tmpfiles, if_pos hl, hres]
        exact h
    | ok u =>
        rw [remove_tmpfiles, if_pos hl, hres]
        show w.tmpfile_num - (w.gp.tmpfile_list.length : Int) ≤ GP_MAX_TMP_FILES - 1
        omega
  · rw [remove_tmpfiles, if_neg hl]
    exact h

/-- plotfile_x never touches the counter. -/
theorem plotfile_x_num (w : World) (f : String) (c : Nat) (t : String) :
    (plotfile_x w f c t).2.tmpfile_num = w.tmpfile_num := by
  cases hfa : file_availableW w f with
  | error e => rw [plotfile_x, hfa]
  | ok u => rw [plotfile_x, hfa]

/-- plotfile_xy never touches the counter. -/
theorem plotfile_xy_num (w : World) (f : String) (cx cy : Nat) (t : String) :
    (plotfile_xy w f cx cy t).2.tmpfile_num = w.tmpfile_num := by
  cases hfa : file_availableW w f with
  | error e => rw [plotfile_xy, hfa]
  | ok u => rw [plotfile_xy, hfa]

/-- plotfile_xy_err never touches the counter. -/
theorem plotfile_xy_err_num (w : World) (f : String) (cx cy cdy : Nat)
    (t : String) :
    (plotfile_xy_err w f cx cy cdy t).2.tmpfile_num = w.tmpfile_num := by
  cases hfa : file_availableW w f with
  | error e => rw [plotfile_xy_err, hfa]
  | ok u => rw [plotfile_xy_err, hfa]

/-- plotfile_xyz never touches the counter. -/
theorem plotfile_xyz_num (w : World) (f : String) (cx cy cz : Nat)
    (t : String) :
    (plotfile_xyz w f cx cy cz t).2.tmpfile_num = w.tmpfile_num := by
  cases hfa : file_availableW w f with
  | error e => rw [plotfile_xyz, hfa]
  | ok u => rw [plotfile_xyz, hfa]

/-- plot_x preserves the counter bound. -/
theorem plot_x_num_le {α : Type} (render : α → String) (env : TmpEnv)
    (w : World) (x : List α) (t : String)
    (h : w.tmpfile_num ≤ GP_MAX_TMP_FILES - 1) :
    (plot_x render env w x t).2.tmpfile_num ≤ GP_MAX_TMP_FILES - 1 := by
  rw [plot_x]
  split
  · exact h
  · split
    · rename_i e w1 heq
      have hc := create_tmpfile_num_le env w h
      rw [heq] at hc
      exact hc
    · rename_i name w1 heq
      have hc := create_tmpfile_num_le env w h
      rw [heq] at hc
      split
      · exact hc
      · rw [plotfile_x_num]
        exact hc

/-- plot_xy preserves the counter bound. -/
theorem plot_xy_num_le {α : Type} (render : α → String) (env : TmpEnv)
    (w : World) (x y : List α) (t : String)
    (h : w.tmpfile_num ≤ GP_MAX_TMP_FILES - 1) :
    (plot_xy render env w x y t).2.tmpfile_num ≤ GP_MAX_TMP_FILES - 1 := by
  rw [plot_xy]
  split
  · exact h
  · split
    · exact h
    · split
      · rename_i e w1 heq
        have hc := create_tmpfile_num_le env w h
        rw [heq] at hc
        exact hc
      · rename_i name w1 heq
        have hc := create_tmpfile_num_le env w h
        rw [heq] at hc
        split
        · exact hc
        · rw [plotfile_xy_num]
          exact hc

/-- plot_xy_err preserves the counter bound. -/
theorem plot_xy_err_num_le {α : Type} (render : α → String) (env : TmpEnv)
    (w : World) (x y dy : List α) (t : String)
    (h : w.tmpfile_num ≤ GP_MAX_TMP_FILES - 1) :
    (plot_xy_err render env w x y dy t).2.tmpfile_num ≤ GP_MAX_TMP_FILES - 1 := by
  rw [plot_xy_err]
  split
  · exact h
  · split
    · exact h
    · split
      · rename_i e w1 heq
        have hc := create_tmpfile_num_le env w h
        rw [heq] at hc
        exact hc
      · rename_i name w1 heq
        have hc := create_tmpfile_num_le env w h
        rw [heq] at hc
        split
        · exact hc
        · rw [plotfile_xy_err_num]
          exact hc

/-- plot_xyz preserves the counter bound. -/
theorem plot_xyz_num_le {α : Type} (render : α → String) (env : TmpEnv)
    (w : World) (x y z : List α) (t : String)
    (h : w.tmpfile_num ≤ GP_MAX_TMP_FILES - 1) :
    (plot_xyz render env w x y z t).2.tmpfile_num ≤ GP_MAX_TMP_FILES - 1 := by
  rw [plot_xyz]
  split
  · exact h
  · split
    · exact h
    · split
      · rename_i e w1 heq
        have hc := create_tmpfile_num_le env w h
        rw [heq] at hc
        exact hc
      · rename_i name w1 heq
        have hc := create_tmpfile_num_le env w h
        rw [heq] at hc
        split
        · exact hc
        · rw [plotfile_xyz_num]
          exact hc

/-- The reachable worlds of the modelled program: the process starts with the
static counter at zero, and evolves by the public operations of the facade. -/
inductive Reachable : World → Prop where
  | init (g : GnuplotState) (fs : List (String × String)) : Reachable ⟨g, 0, fs⟩
  | step_new_session (w : World) (g : GnuplotState) :
      Reachable w → Reachable { w with gp := g }
  | step_cmd (w : World) (s : String) :
      Reachable w → Reachable { w with gp := cmd w.gp s }
  | step_set_smooth (w : World) (s : String) :
      Reachable w → Reachable { w with gp := set_smooth w.gp s }
  | step_create (w : World) (env : TmpEnv) :
      Reachable w → Reachable (create_tmpfile env w).2
  | step_remove (w : World) :
      Reachable w → Reachable (remove_tmpfiles w).2
  | step_plotfile_x (w : World) (f : String) (c : Nat) (t : String) :
      Reachable w → Reachable (plotfile_x w f c t).2
  | step_plotfile_xy (w : World) (f : String) (cx cy : Nat) (t : String) :
      Reachable w → Reachable (plotfile_xy w f cx cy t).2
  | step_plotfile_xy_err (w : World) (f : String) (cx cy cdy : Nat) (t : String) :
      Reachable w → Reachable (plotfile_xy_err w f cx cy cdy t).2
  | step_plotfile_xyz (w : World) (f : String) (cx cy cz : Nat) (t : String) :
      Reachable w → Reachable (plotfile_xyz w f cx cy cz t).2
  | step_plot_x {α : Type} (render : α → String) (env : TmpEnv) (w : World)
      (x : List α) (t : String) :
      Reachable w → Reachable (plot_x render env w x t).2
  | step_plot_xy {α : Type} (render : α → String) (env : TmpEnv) (w : World)
      (x y : List α) (t : String) :
      Reachable w → Reachable (plot_xy render env w x y t).2
  | step_plot_xy_err {α : Type} (render : α → String) (env : TmpEnv) (w : World)
      (x y dy : List α) (t : String) :
      Reachable w → Reachable (plot_xy_err render env w x y dy t).2
  | step_plot_xyz {α : Type} (render : α → String) (env : TmpEnv) (w : World)
      (x y z : List α) (t : String) :
      Reachable w → Reachable (plot_xyz render env w x y z t).2

/-- C4: over every reachable world the process-wide temp-file counter never
exceeds GP_MAX_TMP_FILES minus one, that is 63 in the POSIX build; every
allocation attempted while the counter equals that bound raises the resource
error and changes nothing; and every successful allocation increments the
counter by exactly one. -/
theorem tmpfile_num_invariant (w : World) (hw : Reachable w) :
    w.tmpfile_num ≤ GP_MAX_TMP_FILES - 1 ∧
    (w.tmpfile_num = GP_MAX_TMP_FILES - 1 → ∀ env : TmpEnv,
      create_tmpfile env w
        = (.error (.gnuplotException
            "Maximum number of temporary files reached (64): cannot open more files\n"),
           w)) ∧
    (∀ (env : TmpEnv) (name : String) (w' : World),
      create_tmpfile env w = (.ok name, w') →
        w'.tmpfile_num = w.tmpfile_num + 1) := by
  refine ⟨?_, fun hq env => by rw [create_tmpfile, if_pos hq],
    fun env name w' heq => create_tmpfile_ok_inc env w name w' heq⟩
  induction hw with
  | init g fs =>
      have h64 : GP_MAX_TMP_FILES = (64 : Int) := rfl
      show (0 : Int) ≤ GP_MAX_TMP_FILES - 1
      omega
  | step_new_session w g hw ih => exact ih
  | step_cmd w s hw ih => exact ih
  | step_set_smooth w s hw ih => exact ih
  | step_create w env hw ih => exact create_tmpfile_num_le env w ih
  | step_remove w hw ih => exact remove_tmpfiles_num_le w ih
  | step_plotfile_x w f c t hw ih =>
      rw [plotfile_x_num]
      exact ih
  | step_plotfile_xy w f cx cy t hw ih =>
      rw [plotfile_xy_num]
      exact ih
  | step_plotfile_xy_err w f cx cy cdy t hw ih =>
      rw [plotfile_xy_err_num]
      exact ih
  | step_plotfile_xyz w f cx cy cz t hw ih =>
      rw [plotfile_xyz_num]
      exact ih
  | step_plot_x render env w x t hw ih => exact plot_x_num_le render env w x t ih
  | step_plot_xy render env w x y t hw ih =>
      exact plot_xy_num_le render env w x y t ih
  | step_plot_xy_err render env w x y dy t hw ih =>
      exact plot_xy_err_num_le render env w x y dy t ih
  | step_plot_xyz render env w x y z t hw ih =>
      exact plot_xyz_num_le render env w x y z t ih

/-- Witness for C4: the freshly initialised world is reachable and satisfies
the counter bound. -/
theorem tmpfile_num_invariant_witness :
    ((⟨⟨true, false, 0, "points", "", [], []⟩, 0, []⟩ : World).tmpfile_num
        ≤ GP_MAX_TMP_FILES - 1) :=
  (tmpfile_num_invariant ⟨⟨true, false, 0, "points", "", [], []⟩, 0, []⟩
    (Reachable.init ⟨true, false, 0, "points", "", [], []⟩ [])).1

end GnuplotI
